import Mathlib

/-!
Shallow embedding of `src/weather.py` (an MCP weather server).

Python values flowing through the program are decoded JSON documents; we
model them with the inductive type `Json`. Python exceptions raised by
subscripts (`d[k]`), attribute access (`d.get` on a non-dict) and invalid
operations are modelled with `Except PyError`. The HTTP layer
(`make_nws_request`) is modelled in two ways:
- for claims about `make_nws_request` itself, an explicit `FetchOutcome`
  describes what the upstream/network did, and `make_nws_request` maps it
  to `Option Json` exactly as the `try/except` in the source does;
- for claims about the tool handlers (`get_alerts`, `get_forecast`), the
  already-collapsed behaviour of `make_nws_request` is passed in as an
  environment `fetch : Json → Option Json` (the argument is the value the
  Python code passes as the url; the source passes `points_data
  ["properties"]["forecast"]` unchecked, so it may be any JSON value, and
  a non-string url makes `httpx` raise inside the `try`, i.e. the
  environment returns `none` there).
-/

/-- A decoded JSON document, as returned by `response.json()` in the source.
Numbers are modelled as integers (no claim depends on float arithmetic). -/
inductive Json : Type where
  | null : Json
  | bool : Bool → Json
  | num : Int → Json
  | str : String → Json
  | arr : List Json → Json
  | obj : List (String × Json) → Json

/-- Python exceptions that the embedded fragments of `weather.py` can raise. -/
inductive PyError : Type where
  | keyError : String → PyError
  | typeError : PyError
  | attributeError : PyError
deriving DecidableEq

/-- Python truthiness (`bool(x)`) of a JSON value: `None`, `False`, `0`,
empty string, empty list and empty dict are falsy. -/
def Json.falsy : Json → Bool
  | .null => true
  | .bool b => !b
  | .num n => n == 0
  | .str s => s == ""
  | .arr xs => xs.isEmpty
  | .obj fs => fs.isEmpty

/-- Python `not x` applied to a `dict | None` value (`not data` in the source):
`None` is falsy, otherwise defer to the value's truthiness. -/
def py_not : Option Json → Bool
  | none => true
  | some j => j.falsy

/-- Lookup of a key in the field list of a JSON object (Python dict lookup;
fields of a decoded JSON object have distinct keys, first match is taken). -/
def lookupField : List (String × Json) → String → Option Json
  | [], _ => none
  | (k, v) :: rest, key => if k == key then some v else lookupField rest key

mutual
/-- Python `repr` of a JSON value, used for elements of containers inside
`str` (string escaping inside `repr` of strings is not modelled; no claim
depends on it). -/
def Json.pyRepr : Json → String
  | .null => "None"
  | .bool b => if b then "True" else "False"
  | .num n => toString n
  | .str s => "'" ++ s ++ "'"
  | .arr xs => "[" ++ String.intercalate ", " (Json.pyReprList xs) ++ "]"
  | .obj fs => "\x7b" ++ String.intercalate ", " (Json.pyReprFields fs) ++ "\x7d"

/-- Helper of `Json.pyRepr` for lists. -/
def Json.pyReprList : List Json → List String
  | [] => []
  | x :: xs => Json.pyRepr x :: Json.pyReprList xs

/-- Helper of `Json.pyRepr` for dict fields. -/
def Json.pyReprFields : List (String × Json) → List String
  | [] => []
  | (k, v) :: fs => ("'" ++ k ++ "': " ++ Json.pyRepr v) :: Json.pyReprFields fs
end

/-- Python `str(x)` of a JSON value, as applied by f-string interpolation. -/
def Json.pyStr : Json → String
  | .null => "None"
  | .bool b => if b then "True" else "False"
  | .num n => toString n
  | .str s => s
  | .arr xs => "[" ++ String.intercalate ", " (Json.pyReprList xs) ++ "]"
  | .obj fs => "\x7b" ++ String.intercalate ", " (Json.pyReprFields fs) ++ "\x7d"

/-- Python subscript `x[key]` with a string key: succeeds only on a dict
containing the key (`KeyError` when the key is absent, `TypeError` when the
value is not a dict). -/
def py_getItem : Json → String → Except PyError Json
  | .obj fs, key =>
    match lookupField fs key with
    | some v => .ok v
    | none => .error (.keyError key)
  | _, _ => .error .typeError

/-- Python `key in x` for a string key: key test on dicts, membership on
lists (only a string element can equal a string), substring test on strings,
`TypeError` otherwise. -/
def py_contains : Json → String → Except PyError Bool
  | .obj fs, key => .ok (fs.any fun p => p.1 == key)
  | .arr xs, key => .ok (xs.any fun x => match x with | .str s => s == key | _ => false)
  | .str s, key => .ok (decide ((s.splitOn key).length > 1))
  | _, _ => .error .typeError

/-- Python `x.get(key, default)` followed by f-string interpolation of the
result, where `default` is a string literal in the source: `AttributeError`
when `x` is not a dict. -/
def py_getD (j : Json) (key : String) (default : String) : Except PyError String :=
  match j with
  | .obj fs =>
    .ok (match lookupField fs key with
      | some v => v.pyStr
      | none => default)
  | _ => .error .attributeError

/-- Python iteration `for x in v` collected into a list: lists yield their
elements, dicts their keys, strings their characters, anything else raises. -/
def py_iter : Json → Except PyError (List Json)
  | .arr xs => .ok xs
  | .obj fs => .ok (fs.map fun p => Json.str p.1)
  | .str s => .ok (s.data.map fun c => Json.str (String.mk [c]))
  | _ => .error .typeError

/-- Python `v[:5]` followed by iteration of the result (the source iterates
`periods[:5]`): first five elements of a list, first five characters of a
string, `TypeError` on anything else (slices do not apply to dicts). -/
def py_slice5 : Json → Except PyError (List Json)
  | .arr xs => .ok (xs.take 5)
  | .str s => .ok ((s.data.take 5).map fun c => Json.str (String.mk [c]))
  | _ => .error .typeError

/-- Constant `NWS_API_BASE` from the source. -/
def NWS_API_BASE : String := "https://api.weather.gov"

/-- Constant `USER_AGENT` from the source. -/
def USER_AGENT : String := "weather-app/1.0"

/-- What the upstream/network did during one `client.get`: a response with a
status code and a body (`none` when the body fails JSON decoding), a
transport-level fault, or a timeout. -/
inductive FetchOutcome : Type where
  | response : Nat → Option Json → FetchOutcome
  | transportFault : FetchOutcome
  | timeout : FetchOutcome

/-- Status codes for which `httpx`'s `raise_for_status` does not raise. -/
def is2xx (status : Nat) : Bool := 200 ≤ status && status < 300

/-- Embedding of `make_nws_request` (src/weather.py lines 14-26): the whole
body sits in a `try/except Exception: return None`, so a transport fault or
timeout inside `client.get`, a non-2xx status (which makes
`raise_for_status` raise), and a body that fails JSON decoding (which makes
`response.json()` raise) all yield `None`; a 2xx response with a decodable
body yields the decoded JSON. The function is total: it never raises. -/
def make_nws_request : FetchOutcome → Option Json
  | .response status body => if is2xx status then body else none
  | .transportFault => none
  | .timeout => none

/-- Embedding of `format_alert` (src/weather.py lines 30-39):
`props = feature["properties"]` is an unguarded subscript; the five fields
are then read with `props.get(key, default)` and interpolated. -/
def format_alert (feature : Json) : Except PyError String :=
  match py_getItem feature "properties" with
  | .error e => .error e
  | .ok props =>
    match py_getD props "event" "Unknown" with
    | .error e => .error e
    | .ok ev =>
      match py_getD props "areaDesc" "Unknown" with
      | .error e => .error e
      | .ok area =>
        match py_getD props "severity" "Unknown" with
        | .error e => .error e
        | .ok sev =>
          match py_getD props "description" "No description available" with
          | .error e => .error e
          | .ok desc =>
            match py_getD props "instruction" "No specific instructions provided" with
            | .error e => .error e
            | .ok ins =>
              .ok ("Event: " ++ ev ++ "\n" ++ "Area: " ++ area ++ "\n" ++
                   "Severity: " ++ sev ++ "\n" ++ "Description: " ++ desc ++ "\n" ++
                   "Instructions: " ++ ins)

/-- Left-to-right effectful map, embedding a Python list comprehension or
`for` loop that appends: the first raised exception propagates. -/
def mapExcept (f : Json → Except PyError String) : List Json → Except PyError (List String)
  | [] => .ok []
  | x :: xs =>
    match f x with
    | .error e => .error e
    | .ok s =>
      match mapExcept f xs with
      | .error e => .error e
      | .ok ss => .ok (s :: ss)

/-- Embedding of `"\n---\n".join(blocks)` from the source (Python
`str.join` semantics). -/
def joinBlocks : List String → String
  | [] => ""
  | [b] => b
  | b :: bs => b ++ "\n---\n" ++ joinBlocks bs

/-- URL built by `get_alerts` for a state code. -/
def alerts_url (state : String) : String :=
  NWS_API_BASE ++ "/alerts/active/area/" ++ state

/-- Embedding of `get_alerts` (src/weather.py lines 42-53). The behaviour of
`make_nws_request` is supplied as the environment `fetch`. The source guard
`if not data or "features" not in data` short-circuits: `"features" not in
data` is only evaluated when `data` is truthy. -/
def get_alerts (fetch : Json → Option Json) (state : String) : Except PyError String :=
  match fetch (Json.str (alerts_url state)) with
  | none => .ok "Unable to fetch alerts or no alerts found."
  | some data =>
    if data.falsy then .ok "Unable to fetch alerts or no alerts found."
    else
      match py_contains data "features" with
      | .error e => .error e
      | .ok hasFeatures =>
        if hasFeatures = false then .ok "Unable to fetch alerts or no alerts found."
        else
          match py_getItem data "features" with
          | .error e => .error e
          | .ok features =>
            if features.falsy then .ok "No active alerts for this state."
            else
              match py_iter features with
              | .error e => .error e
              | .ok items =>
                match mapExcept format_alert items with
                | .error e => .error e
                | .ok alerts => .ok (joinBlocks alerts)

/-- URL built by `get_forecast` for a coordinate pair. Python floats are
represented by the decimal strings their f-string interpolation produces. -/
def points_url (latitude longitude : String) : String :=
  NWS_API_BASE ++ "/points/" ++ latitude ++ "," ++ longitude

/-- Embedding of the body of the `for period in periods[:5]` loop of
`get_forecast` (src/weather.py lines 70-75); the spec calls it
`format_period`. All six subscripts are unguarded, evaluated left to right. -/
def format_period (period : Json) : Except PyError String :=
  match py_getItem period "name" with
  | .error e => .error e
  | .ok name =>
    match py_getItem period "temperature" with
    | .error e => .error e
    | .ok temp =>
      match py_getItem period "temperatureUnit" with
      | .error e => .error e
      | .ok unit =>
        match py_getItem period "windSpeed" with
        | .error e => .error e
        | .ok speed =>
          match py_getItem period "windDirection" with
          | .error e => .error e
          | .ok dir =>
            match py_getItem period "detailedForecast" with
            | .error e => .error e
            | .ok detail =>
              .ok (name.pyStr ++ ":\n" ++ "  Temperature: " ++ temp.pyStr ++ "°" ++
                   unit.pyStr ++ "\n" ++ "  Wind: " ++ speed.pyStr ++ " " ++ dir.pyStr ++
                   "\n" ++ "  Forecast: " ++ detail.pyStr)

/-- Embedding of `get_forecast` (src/weather.py lines 57-77). The forecast
url extracted from the points response is passed to `fetch` unchecked, as the
source passes it to `make_nws_request`. -/
def get_forecast (fetch : Json → Option Json) (latitude longitude : String) :
    Except PyError String :=
  match fetch (Json.str (points_url latitude longitude)) with
  | none => .ok "Unable to fetch forecast data for this location."
  | some points_data =>
    if points_data.falsy then .ok "Unable to fetch forecast data for this location."
    else
      match py_getItem points_data "properties" with
      | .error e => .error e
      | .ok props =>
        match py_getItem props "forecast" with
        | .error e => .error e
        | .ok forecast_url =>
          match fetch forecast_url with
          | none => .ok "Unable to fetch detailed forecast."
          | some forecast_data =>
            if forecast_data.falsy then .ok "Unable to fetch detailed forecast."
            else
              match py_getItem forecast_data "properties" with
              | .error e => .error e
              | .ok fprops =>
                match py_getItem fprops "periods" with
                | .error e => .error e
                | .ok periods =>
                  match py_slice5 periods with
                  | .error e => .error e
                  | .ok firstFive =>
                    match mapExcept format_period firstFive with
                    | .error e => .error e
                    | .ok forecasts => .ok (joinBlocks forecasts)

/-- Instrumented copy of `get_forecast` that additionally records, in order,
the url values passed to `fetch` (i.e. the `make_nws_request` calls the
source performs). `get_forecast_logged_fst` below proves it computes the same
result as `get_forecast`. -/
def get_forecast_logged (fetch : Json → Option Json) (latitude longitude : String) :
    Except PyError String × List Json :=
  let u1 := Json.str (points_url latitude longitude)
  match fetch u1 with
  | none => (.ok "Unable to fetch forecast data for this location.", [u1])
  | some points_data =>
    if points_data.falsy then
      (.ok "Unable to fetch forecast data for this location.", [u1])
    else
      match py_getItem points_data "properties" with
      | .error e => (.error e, [u1])
      | .ok props =>
        match py_getItem props "forecast" with
        | .error e => (.error e, [u1])
        | .ok forecast_url =>
          match fetch forecast_url with
          | none => (.ok "Unable to fetch detailed forecast.", [u1, forecast_url])
          | some forecast_data =>
            if forecast_data.falsy then
              (.ok "Unable to fetch detailed forecast.", [u1, forecast_url])
            else
              match py_getItem forecast_data "properties" with
              | .error e => (.error e, [u1, forecast_url])
              | .ok fprops =>
                match py_getItem fprops "periods" with
                | .error e => (.error e, [u1, forecast_url])
                | .ok periods =>
                  match py_slice5 periods with
                  | .error e => (.error e, [u1, forecast_url])
                  | .ok firstFive =>
                    match mapExcept format_period firstFive with
                    | .error e => (.error e, [u1, forecast_url])
                    | .ok forecasts => (.ok (joinBlocks forecasts), [u1, forecast_url])

/-- Embedding of `plan_the_evening` (src/weather.py lines 81-84): a pure
template around the caller-supplied text. -/
def plan_the_evening (text : String) : String :=
  "Plan the evening based on the weather forecast:" ++ "\n\n" ++ text

/-- A forecast period is well formed when it is a JSON object carrying all
six fields read by `format_period`. -/
def hasSixFields (p : Json) : Bool :=
  match p with
  | .obj pfs =>
    ["name", "temperature", "temperatureUnit", "windSpeed", "windDirection",
     "detailedForecast"].all fun k => (lookupField pfs k).isSome
  | _ => false

/-- Field-or-default rendering used by `format_alert` once the properties
dict is in hand: present fields are interpolated, absent ones replaced by
the default literal. -/
def alertField (pfs : List (String × Json)) (key default : String) : String :=
  match lookupField pfs key with
  | some v => v.pyStr
  | none => default

/-- Line count of a string, where lines are pieces separated by the newline
character. -/
def numLines (s : String) : Nat := s.data.count '\n' + 1

/-- Forecast period carrying all six required fields, used as concrete data. -/
def mkPeriod (n : String) : Json :=
  Json.obj [("name", Json.str n), ("temperature", Json.num 60),
            ("temperatureUnit", Json.str "F"), ("windSpeed", Json.str "5 mph"),
            ("windDirection", Json.str "NW"), ("detailedForecast", Json.str "Clear.")]

/-- Concrete list of seven well-formed forecast periods. -/
def sevenPeriods : List Json :=
  [mkPeriod "P1", mkPeriod "P2", mkPeriod "P3", mkPeriod "P4", mkPeriod "P5",
   mkPeriod "P6", mkPeriod "P7"]

/-- Concrete upstream document that serves both as a points response (its
`properties.forecast` is a url) and as a forecast response (its
`properties.periods` has seven periods), so a constant fetch environment can
drive `get_forecast` end to end. -/
def comboForecast : Json :=
  Json.obj [("properties",
    Json.obj [("forecast", Json.str "https://api.weather.gov/gridpoints/TOP/32,81/forecast"),
              ("periods", Json.arr sevenPeriods)])]

/-- The `properties` object inside `comboForecast`. -/
def comboProps : Json :=
  Json.obj [("forecast", Json.str "https://api.weather.gov/gridpoints/TOP/32,81/forecast"),
            ("periods", Json.arr sevenPeriods)]

/-- The five blocks `get_forecast` formats out of `sevenPeriods`. -/
def blocks7 : List String :=
  ["P1:\n  Temperature: 60°F\n  Wind: 5 mph NW\n  Forecast: Clear.",
   "P2:\n  Temperature: 60°F\n  Wind: 5 mph NW\n  Forecast: Clear.",
   "P3:\n  Temperature: 60°F\n  Wind: 5 mph NW\n  Forecast: Clear.",
   "P4:\n  Temperature: 60°F\n  Wind: 5 mph NW\n  Forecast: Clear.",
   "P5:\n  Temperature: 60°F\n  Wind: 5 mph NW\n  Forecast: Clear."]

/-- Alert feature whose `description` value itself contains a newline. -/
def newlineFeature : Json :=
  Json.obj [("properties", Json.obj [("description", Json.str "line one\nline two")])]

/-! Helper lemmas (not themselves claim theorems). -/

/-- Dict-key lookup fails exactly when no field carries the key. -/
theorem lookupField_eq_none_iff (fs : List (String × Json)) (k : String) :
    lookupField fs k = none ↔ (fs.any fun p => p.1 == k) = false := by
  induction fs with
  | nil => simp [lookupField]
  | cons p rest ih =>
    obtain ⟨a, b⟩ := p
    simp only [lookupField, List.any_cons]
    cases h : (a == k) <;> simp [h, ih]

/-- Dict-key lookup succeeding means some field carries the key. -/
theorem lookupField_some_any (fs : List (String × Json)) (k : String) (v : Json)
    (h : lookupField fs k = some v) : (fs.any fun p => p.1 == k) = true := by
  cases ha : (fs.any fun p => p.1 == k) with
  | true => rfl
  | false => rw [(lookupField_eq_none_iff fs k).mpr ha] at h; cases h

/-- A dict with a successful lookup is non-empty. -/
theorem lookupField_some_not_nil (fs : List (String × Json)) (k : String) (v : Json)
    (h : lookupField fs k = some v) : fs.isEmpty = false := by
  cases fs with
  | nil => simp [lookupField] at h
  | cons p rest => rfl

/-- Effectful map succeeds with a list of the same length. -/
theorem mapExcept_ok_length (f : Json → Except PyError String) (xs : List Json)
    (ys : List String) (h : mapExcept f xs = .ok ys) : ys.length = xs.length := by
  induction xs generalizing ys with
  | nil => simp [mapExcept] at h; simp [← h]
  | cons x xs ih =>
    unfold mapExcept at h
    cases hfx : f x with
    | error e => rw [hfx] at h; cases h
    | ok s =>
      rw [hfx] at h
      cases hm : mapExcept f xs with
      | error e => rw [hm] at h; cases h
      | ok ss =>
        rw [hm] at h
        cases h
        simp [ih ss hm]

/-- Effectful map succeeds when every element succeeds. -/
theorem mapExcept_ok_of_all (f : Json → Except PyError String) (xs : List Json)
    (h : ∀ x ∈ xs, ∃ s, f x = .ok s) : ∃ ys, mapExcept f xs = .ok ys := by
  induction xs with
  | nil => exact ⟨[], rfl⟩
  | cons x xs ih =>
    obtain ⟨s, hs⟩ := h x (List.mem_cons_self x xs)
    obtain ⟨ys, hys⟩ := ih fun y hy => h y (List.mem_cons_of_mem x hy)
    exact ⟨s :: ys, by simp [mapExcept, hs, hys]⟩

/-- Effectful map raises when some element raises. -/
theorem mapExcept_error_of_mem (f : Json → Except PyError String) (xs : List Json)
    (p : Json) (e : PyError) (hmem : p ∈ xs) (he : f p = .error e) :
    ∃ e2, mapExcept f xs = .error e2 := by
  induction xs with
  | nil => cases hmem
  | cons x xs ih =>
    unfold mapExcept
    cases hfx : f x with
    | error e1 => exact ⟨e1, rfl⟩
    | ok s =>
      rcases List.mem_cons.mp hmem with rfl | hmem2
      · rw [hfx] at he; cases he
      · obtain ⟨e2, he2⟩ := ih hmem2
        exact ⟨e2, by rw [he2]⟩

/-- Once the properties dict is in hand, `format_alert` produces the fixed
five-segment template with field-or-default values. -/
theorem format_alert_template (fs pfs : List (String × Json))
    (h : lookupField fs "properties" = some (Json.obj pfs)) :
    format_alert (Json.obj fs) =
      .ok ("Event: " ++ alertField pfs "event" "Unknown" ++ "\n" ++
           "Area: " ++ alertField pfs "areaDesc" "Unknown" ++ "\n" ++
           "Severity: " ++ alertField pfs "severity" "Unknown" ++ "\n" ++
           "Description: " ++ alertField pfs "description" "No description available" ++ "\n" ++
           "Instructions: " ++ alertField pfs "instruction" "No specific instructions provided") := by
  simp [format_alert, py_getItem, h, py_getD, alertField]

/-- If `format_period` succeeds, the period was an object carrying all six
required fields. -/
theorem format_period_ok_sixFields (p : Json) (s : String)
    (h : format_period p = .ok s) : hasSixFields p = true := by
  cases p with
  | obj pfs =>
    cases h1 : lookupField pfs "name" with
    | none => simp [format_period, py_getItem, h1] at h
    | some v1 =>
      cases h2 : lookupField pfs "temperature" with
      | none => simp [format_period, py_getItem, h1, h2] at h
      | some v2 =>
        cases h3 : lookupField pfs "temperatureUnit" with
        | none => simp [format_period, py_getItem, h1, h2, h3] at h
        | some v3 =>
          cases h4 : lookupField pfs "windSpeed" with
          | none => simp [format_period, py_getItem, h1, h2, h3, h4] at h
          | some v4 =>
            cases h5 : lookupField pfs "windDirection" with
            | none => simp [format_period, py_getItem, h1, h2, h3, h4, h5] at h
            | some v5 =>
              cases h6 : lookupField pfs "detailedForecast" with
              | none => simp [format_period, py_getItem, h1, h2, h3, h4, h5, h6] at h
              | some v6 => simp [hasSixFields, h1, h2, h3, h4, h5, h6]
  | null => simp [format_period, py_getItem] at h
  | bool b => simp [format_period, py_getItem] at h
  | num n => simp [format_period, py_getItem] at h
  | str s2 => simp [format_period, py_getItem] at h
  | arr xs => simp [format_period, py_getItem] at h

/-- A period carrying all six required fields formats without raising. -/
theorem format_period_ok_of_sixFields (p : Json) (h : hasSixFields p = true) :
    ∃ s, format_period p = .ok s := by
  cases p with
  | obj pfs =>
    simp only [hasSixFields, List.all_cons, List.all_nil, Bool.and_eq_true,
      Option.isSome_iff_exists, and_true] at h
    obtain ⟨⟨v1, h1⟩, ⟨v2, h2⟩, ⟨v3, h3⟩, ⟨v4, h4⟩, ⟨v5, h5⟩, ⟨v6, h6⟩⟩ := h
    cases hfp : format_period (Json.obj pfs) with
    | ok s => exact ⟨s, rfl⟩
    | error e => simp [format_period, py_getItem, h1, h2, h3, h4, h5, h6] at hfp
  | null => simp [hasSixFields] at h
  | bool b => simp [hasSixFields] at h
  | num n => simp [hasSixFields] at h
  | str s2 => simp [hasSixFields] at h
  | arr xs => simp [hasSixFields] at h

/-- A period object missing any one of the six required fields makes
`format_period` raise. -/
theorem format_period_error_of_missing (pfs : List (String × Json)) (k : String)
    (hk : k = "name" ∨ k = "temperature" ∨ k = "temperatureUnit" ∨ k = "windSpeed" ∨
      k = "windDirection" ∨ k = "detailedForecast")
    (h : lookupField pfs k = none) :
    ∃ e, format_period (Json.obj pfs) = .error e := by
  cases hfp : format_period (Json.obj pfs) with
  | error e => exact ⟨e, rfl⟩
  | ok s =>
    have hsix := format_period_ok_sixFields _ _ hfp
    simp only [hasSixFields, List.all_cons, List.all_nil, Bool.and_eq_true, and_true] at hsix
    obtain ⟨h1, h2, h3, h4, h5, h6⟩ := hsix
    rcases hk with rfl | rfl | rfl | rfl | rfl | rfl <;> simp_all

/-- Unfolding of `get_forecast` once both fetches and both `properties`
subscripts have gone through. -/
theorem get_forecast_pipeline (fetch : Json → Option Json) (lat lon : String)
    (pd props u fd fprops periods : Json)
    (h1 : fetch (Json.str (points_url lat lon)) = some pd)
    (h2 : pd.falsy = false)
    (h3 : py_getItem pd "properties" = .ok props)
    (h4 : py_getItem props "forecast" = .ok u)
    (h5 : fetch u = some fd)
    (h6 : fd.falsy = false)
    (h7 : py_getItem fd "properties" = .ok fprops)
    (h8 : py_getItem fprops "periods" = .ok periods) :
    get_forecast fetch lat lon =
      (match py_slice5 periods with
       | .error e => .error e
       | .ok firstFive =>
         match mapExcept format_period firstFive with
         | .error e => .error e
         | .ok forecasts => .ok (joinBlocks forecasts)) := by
  simp only [get_forecast, h1, h2, h3, h4, h5, h6, h7, h8, Bool.false_eq_true,
    if_false]

/-- The instrumented forecast handler computes the same result as the plain
embedding; only the call log is added. -/
theorem get_forecast_logged_fst (fetch : Json → Option Json) (lat lon : String) :
    (get_forecast_logged fetch lat lon).1 = get_forecast fetch lat lon := by
  unfold get_forecast_logged get_forecast
  repeat' split
  all_goals simp_all

/-- Joining `1 + k` blocks yields the summed block length plus five
characters (one `"\n---\n"`) per additional block: exactly `k` separators. -/
theorem joinBlocks_cons_length (b : String) (bs : List String) :
    (joinBlocks (b :: bs)).length = ((b :: bs).map String.length).sum + 5 * bs.length := by
  induction bs generalizing b with
  | nil => simp [joinBlocks]
  | cons c cs ih =>
    have hstep : joinBlocks (b :: c :: cs) = b ++ "\n---\n" ++ joinBlocks (c :: cs) := rfl
    have hsep : ("\n---\n").length = 5 := rfl
    rw [hstep, String.length_append, String.length_append, ih c, hsep]
    simp [List.map_cons, List.sum_cons]
    ring

/-- A field-or-default value contains no newline when neither the stored
value nor the default does. -/
theorem alertField_count_nl (pfs : List (String × Json)) (k d : String)
    (hdef : d.data.count '\n' = 0)
    (hp : ∀ v, lookupField pfs k = some v → v.pyStr.data.count '\n' = 0) :
    (alertField pfs k d).data.count '\n' = 0 := by
  cases hv : lookupField pfs k with
  | none => simp only [alertField, hv]; exact hdef
  | some v => simp only [alertField, hv]; exact hp v hv

/-- The alert template has exactly five lines when the five interpolated
values are newline-free. -/
theorem numLines_template (e a sv d i : String)
    (he : e.data.count '\n' = 0) (ha : a.data.count '\n' = 0) (hs : sv.data.count '\n' = 0)
    (hd : d.data.count '\n' = 0) (hi : i.data.count '\n' = 0) :
    numLines ("Event: " ++ e ++ "\n" ++ "Area: " ++ a ++ "\n" ++ "Severity: " ++ sv ++ "\n" ++
      "Description: " ++ d ++ "\n" ++ "Instructions: " ++ i) = 5 := by
  have l1 : ("Event: ").data.count '\n' = 0 := rfl
  have l2 : ("\n").data.count '\n' = 1 := rfl
  have l3 : ("Area: ").data.count '\n' = 0 := rfl
  have l4 : ("Severity: ").data.count '\n' = 0 := rfl
  have l5 : ("Description: ").data.count '\n' = 0 := rfl
  have l6 : ("Instructions: ").data.count '\n' = 0 := rfl
  simp [numLines, String.data_append, List.count_append, he, ha, hs, hd, hi,
    l1, l2, l3, l4, l5, l6]

/-! Claim theorems. -/

/-- C1: for every upstream result of the alerts fetch, `get_alerts` returns
the fixed "Unable to fetch alerts or no alerts found." string when the fetch
returns absence or the decoded mapping lacks a `features` key, returns the
fixed "No active alerts for this state." string when `features` is present
but an empty sequence, and the two strings differ. -/
theorem get_alerts_absent_vs_empty :
    (∀ (fetch : Json → Option Json) (state : String),
      fetch (Json.str (alerts_url state)) = none →
      get_alerts fetch state = .ok "Unable to fetch alerts or no alerts found.") ∧
    (∀ (fetch : Json → Option Json) (state : String) (fs : List (String × Json)),
      fetch (Json.str (alerts_url state)) = some (Json.obj fs) →
      lookupField fs "features" = none →
      get_alerts fetch state = .ok "Unable to fetch alerts or no alerts found.") ∧
    (∀ (fetch : Json → Option Json) (state : String) (fs : List (String × Json)),
      fetch (Json.str (alerts_url state)) = some (Json.obj fs) →
      lookupField fs "features" = some (Json.arr []) →
      get_alerts fetch state = .ok "No active alerts for this state.") ∧
    "Unable to fetch alerts or no alerts found." ≠ "No active alerts for this state." := by
  refine ⟨?_, ?_, ?_, by decide⟩
  · intro fetch state h
    unfold get_alerts
    rw [h]
  · intro fetch state fs h hlk
    unfold get_alerts
    rw [h]
    by_cases hemp : fs.isEmpty = true
    · simp [Json.falsy, hemp]
    · have hany := (lookupField_eq_none_iff fs "features").mp hlk
      simp [Json.falsy, hemp, py_contains, hany]
  · intro fetch state fs h hlk
    unfold get_alerts
    rw [h]
    have hne := lookupField_some_not_nil fs "features" _ hlk
    have hany := lookupField_some_any fs "features" _ hlk
    simp [Json.falsy, hne, py_contains, hany, py_getItem, hlk]

/-- C1 witness: absence and an empty `features` list at region code "CA". -/
theorem get_alerts_absent_vs_empty_witness :
    get_alerts (fun _ => none) "CA" = .ok "Unable to fetch alerts or no alerts found." ∧
    get_alerts (fun _ => some (Json.obj [("features", Json.arr [])])) "CA" =
      .ok "No active alerts for this state." :=
  ⟨get_alerts_absent_vs_empty.1 (fun _ => none) "CA" rfl,
   get_alerts_absent_vs_empty.2.2.1 (fun _ => some (Json.obj [("features", Json.arr [])]))
     "CA" [("features", Json.arr [])] rfl rfl⟩

/-- C4: `make_nws_request` never raises (it is a total function into
`Option Json`): a 2xx response with a decodable body yields the decoded
mapping; a non-2xx status, an undecodable body, a transport fault and a
timeout all yield the single absence value `none`. -/
theorem make_nws_request_total_classification :
    (∀ (status : Nat) (j : Json), is2xx status = true →
      make_nws_request (.response status (some j)) = some j) ∧
    (∀ (status : Nat) (body : Option Json), is2xx status = false →
      make_nws_request (.response status body) = none) ∧
    (∀ status : Nat, make_nws_request (.response status none) = none) ∧
    make_nws_request .transportFault = none ∧
    make_nws_request .timeout = none := by
  refine ⟨?_, ?_, ?_, rfl, rfl⟩
  · intro status j h
    simp [make_nws_request, h]
  · intro status body h
    simp [make_nws_request, h]
  · intro status
    simp [make_nws_request]

/-- C4 witness: a 200 response with a body and a 404 response. -/
theorem make_nws_request_total_classification_witness :
    make_nws_request (.response 200 (some Json.null)) = some Json.null ∧
    make_nws_request (.response 404 (some Json.null)) = none :=
  ⟨make_nws_request_total_classification.1 200 Json.null rfl,
   make_nws_request_total_classification.2.1 404 (some Json.null) rfl⟩

/-- C5: when the points fetch returns absence, `get_forecast` returns
exactly the fixed "Unable to fetch forecast data for this location." string,
and the call log of the instrumented embedding shows the points url as the
only fetch performed: the second (forecast) fetch is never attempted. -/
theorem get_forecast_points_shortcircuit (fetch : Json → Option Json) (lat lon : String)
    (h : fetch (Json.str (points_url lat lon)) = none) :
    get_forecast fetch lat lon = .ok "Unable to fetch forecast data for this location." ∧
    get_forecast_logged fetch lat lon =
      (.ok "Unable to fetch forecast data for this location.",
       [Json.str (points_url lat lon)]) := by
  constructor
  · unfold get_forecast
    rw [h]
  · unfold get_forecast_logged
    simp only [h]

/-- C5 witness: the coordinate (39.7456, -97.0892) with a failing fetch. -/
theorem get_forecast_points_shortcircuit_witness :
    get_forecast (fun _ => none) "39.7456" "-97.0892" =
      .ok "Unable to fetch forecast data for this location." ∧
    get_forecast_logged (fun _ => none) "39.7456" "-97.0892" =
      (.ok "Unable to fetch forecast data for this location.",
       [Json.str (points_url "39.7456" "-97.0892")]) :=
  get_forecast_points_shortcircuit (fun _ => none) "39.7456" "-97.0892" rfl

/-- C7: the joining rule shared by `get_alerts` and `get_forecast`: zero
blocks join to the empty string, one block joins to itself with no
separator, and joining one more block onto a non-empty tail inserts exactly
one "\n---\n" (so n blocks carry exactly n-1 separators, none before the
first or after the last); the length identity makes the separator count
explicit. -/
theorem joinBlocks_separator_rule :
    joinBlocks [] = "" ∧
    (∀ b : String, joinBlocks [b] = b) ∧
    (∀ (b : String) (bs : List String), bs ≠ [] →
      joinBlocks (b :: bs) = b ++ "\n---\n" ++ joinBlocks bs) ∧
    (∀ (b : String) (bs : List String),
      (joinBlocks (b :: bs)).length = ((b :: bs).map String.length).sum + 5 * bs.length) := by
  refine ⟨rfl, fun b => rfl, ?_, joinBlocks_cons_length⟩
  intro b bs h
  cases bs with
  | nil => exact absurd rfl h
  | cons c cs => rfl

/-- C7 witness: joining two blocks inserts one separator. -/
theorem joinBlocks_separator_rule_witness :
    joinBlocks ["A", "B"] = "A" ++ "\n---\n" ++ joinBlocks ["B"] :=
  joinBlocks_separator_rule.2.2.1 "A" ["B"] (List.cons_ne_nil "B" [])

/-- C8: the partiality of `format_alert` is confined to obtaining the
properties mapping: a feature object lacking the `properties` key raises a
key-lookup fault (never a defaulted block), while any feature whose
`properties` mapping is present formats without raising. -/
theorem format_alert_sole_partiality :
    (∀ fs : List (String × Json), lookupField fs "properties" = none →
      format_alert (Json.obj fs) = .error (.keyError "properties")) ∧
    (∀ (fs pfs : List (String × Json)),
      lookupField fs "properties" = some (Json.obj pfs) →
      ∃ s, format_alert (Json.obj fs) = .ok s) := by
  constructor
  · intro fs h
    simp [format_alert, py_getItem, h]
  · intro fs pfs h
    exact ⟨_, format_alert_template fs pfs h⟩

/-- C8 witness: a feature without `properties` raises, one with an empty
properties dict formats. -/
theorem format_alert_sole_partiality_witness :
    format_alert (Json.obj []) = .error (.keyError "properties") ∧
    (∃ s, format_alert (Json.obj [("properties", Json.obj [])]) = .ok s) :=
  ⟨format_alert_sole_partiality.1 [] rfl,
   format_alert_sole_partiality.2 [("properties", Json.obj [])] [] rfl⟩

/-- C9: a points fetch that succeeds with a decoded empty (falsy) mapping
makes `get_forecast` return the fixed "Unable to fetch forecast data for
this location." string (the truthiness guard conflates it with absence),
whereas a non-empty decoded mapping missing `properties` raises the key
fault. -/
theorem get_forecast_truthiness_conflation :
    (∀ (fetch : Json → Option Json) (lat lon : String),
      fetch (Json.str (points_url lat lon)) = some (Json.obj []) →
      get_forecast fetch lat lon = .ok "Unable to fetch forecast data for this location.") ∧
    (∀ (fetch : Json → Option Json) (lat lon : String) (fs : List (String × Json)),
      fetch (Json.str (points_url lat lon)) = some (Json.obj fs) →
      (Json.obj fs).falsy = false →
      lookupField fs "properties" = none →
      get_forecast fetch lat lon = .error (.keyError "properties")) := by
  constructor
  · intro fetch lat lon h
    unfold get_forecast
    rw [h]
    rfl
  · intro fetch lat lon fs h hfalsy hlk
    unfold get_forecast
    rw [h]
    simp [hfalsy, py_getItem, hlk]

/-- C9 witness: a fetch decoding to the empty mapping, and one decoding to a
non-empty mapping without `properties`. -/
theorem get_forecast_truthiness_conflation_witness :
    get_forecast (fun _ => some (Json.obj [])) "39.7456" "-97.0892" =
      .ok "Unable to fetch forecast data for this location." ∧
    get_forecast (fun _ => some (Json.obj [("x", Json.null)])) "39.7456" "-97.0892" =
      .error (.keyError "properties") :=
  ⟨get_forecast_truthiness_conflation.1 (fun _ => some (Json.obj [])) "39.7456" "-97.0892" rfl,
   get_forecast_truthiness_conflation.2 (fun _ => some (Json.obj [("x", Json.null)]))
     "39.7456" "-97.0892" [("x", Json.null)] rfl rfl rfl⟩

/-- C10: when both fetches succeed and `properties.periods` is present but
an empty list, `get_forecast` returns the empty string: there is no "no
forecast available" message. -/
theorem get_forecast_empty_periods (fetch : Json → Option Json) (lat lon : String)
    (pd props u fd fprops : Json)
    (h1 : fetch (Json.str (points_url lat lon)) = some pd)
    (h2 : pd.falsy = false)
    (h3 : py_getItem pd "properties" = .ok props)
    (h4 : py_getItem props "forecast" = .ok u)
    (h5 : fetch u = some fd)
    (h6 : fd.falsy = false)
    (h7 : py_getItem fd "properties" = .ok fprops)
    (h8 : py_getItem fprops "periods" = .ok (Json.arr [])) :
    get_forecast fetch lat lon = .ok "" := by
  rw [get_forecast_pipeline fetch lat lon pd props u fd fprops (Json.arr [])
    h1 h2 h3 h4 h5 h6 h7 h8]
  rfl

/-- C10 witness: a constant fetch whose document carries a forecast url and
an empty periods list. -/
theorem get_forecast_empty_periods_witness :
    get_forecast
      (fun _ => some (Json.obj [("properties",
        Json.obj [("forecast", Json.str "u2"), ("periods", Json.arr [])])]))
      "39.7456" "-97.0892" = .ok "" :=
  get_forecast_empty_periods
    (fun _ => some (Json.obj [("properties",
      Json.obj [("forecast", Json.str "u2"), ("periods", Json.arr [])])]))
    "39.7456" "-97.0892"
    (Json.obj [("properties", Json.obj [("forecast", Json.str "u2"),
      ("periods", Json.arr [])])])
    (Json.obj [("forecast", Json.str "u2"), ("periods", Json.arr [])])
    (Json.str "u2")
    (Json.obj [("properties", Json.obj [("forecast", Json.str "u2"),
      ("periods", Json.arr [])])])
    (Json.obj [("forecast", Json.str "u2"), ("periods", Json.arr [])])
    rfl rfl rfl rfl rfl rfl rfl rfl

/-- C3: for a forecast response whose `properties.periods` is a list of
well-formed periods, `get_forecast` outputs the join of exactly
`min n 5` formatted blocks: at most five however large `n`, exactly `n`
when fewer than five. -/
theorem get_forecast_min_five_blocks (fetch : Json → Option Json) (lat lon : String)
    (pd props u fd fprops : Json) (ps : List Json)
    (h1 : fetch (Json.str (points_url lat lon)) = some pd)
    (h2 : pd.falsy = false)
    (h3 : py_getItem pd "properties" = .ok props)
    (h4 : py_getItem props "forecast" = .ok u)
    (h5 : fetch u = some fd)
    (h6 : fd.falsy = false)
    (h7 : py_getItem fd "properties" = .ok fprops)
    (h8 : py_getItem fprops "periods" = .ok (Json.arr ps))
    (h9 : ps.all hasSixFields = true) :
    ∃ blocks : List String,
      mapExcept format_period (ps.take 5) = .ok blocks ∧
      get_forecast fetch lat lon = .ok (joinBlocks blocks) ∧
      blocks.length = min ps.length 5 := by
  have hall : ∀ p ∈ ps.take 5, ∃ s, format_period p = .ok s := by
    intro p hp
    refine format_period_ok_of_sixFields p ?_
    have hmem := List.take_subset 5 ps hp
    have := List.all_eq_true.mp h9 p hmem
    simpa using this
  obtain ⟨blocks, hb⟩ := mapExcept_ok_of_all format_period (ps.take 5) hall
  refine ⟨blocks, hb, ?_, ?_⟩
  · rw [get_forecast_pipeline fetch lat lon pd props u fd fprops (Json.arr ps)
      h1 h2 h3 h4 h5 h6 h7 h8]
    simp [py_slice5, hb]
  · rw [mapExcept_ok_length format_period (ps.take 5) blocks hb, List.length_take]
    exact Nat.min_comm 5 ps.length

/-- C3 witness: seven periods produce exactly the five blocks of
`blocks7`, and 5 = min 7 5. -/
theorem get_forecast_min_five_blocks_witness :
    get_forecast (fun _ => some comboForecast) "39.7456" "-97.0892" =
      .ok (joinBlocks blocks7) ∧ blocks7.length = min sevenPeriods.length 5 := by
  obtain ⟨blocks, hb, hres, hlen⟩ :=
    get_forecast_min_five_blocks (fun _ => some comboForecast) "39.7456" "-97.0892"
      comboForecast comboProps
      (Json.str "https://api.weather.gov/gridpoints/TOP/32,81/forecast")
      comboForecast comboProps sevenPeriods rfl rfl rfl rfl rfl rfl rfl rfl rfl
  have hconc : mapExcept format_period (sevenPeriods.take 5) = .ok blocks7 := rfl
  rw [hconc] at hb
  obtain rfl := Except.ok.inj hb
  exact ⟨hres, hlen⟩

/-- C2 counterexample: a present `description` value containing a newline
makes the formatted string have six lines, not five, refuting "a string of
exactly five lines" as universally stated. -/
theorem format_alert_five_lines_cex :
    format_alert newlineFeature =
      .ok ("Event: Unknown\nArea: Unknown\nSeverity: Unknown\nDescription: line one\nline two\nInstructions: No specific instructions provided") ∧
    numLines ("Event: Unknown\nArea: Unknown\nSeverity: Unknown\nDescription: line one\nline two\nInstructions: No specific instructions provided") = 6 :=
  ⟨rfl, rfl⟩

/-- C2 amended: with the properties mapping present, `format_alert` returns
without error the five labelled segments Event, Area, Severity, Description,
Instructions in fixed order joined by single newlines, each missing source
field replaced by its field-specific default; the string has exactly five
lines whenever the present field values are newline-free, and with all five
fields absent it is the well-formed five-line all-defaults block. -/
theorem format_alert_defaulted_template :
    (∀ fs pfs : List (String × Json), lookupField fs "properties" = some (Json.obj pfs) →
      format_alert (Json.obj fs) =
        .ok ("Event: " ++ alertField pfs "event" "Unknown" ++ "\n" ++
             "Area: " ++ alertField pfs "areaDesc" "Unknown" ++ "\n" ++
             "Severity: " ++ alertField pfs "severity" "Unknown" ++ "\n" ++
             "Description: " ++ alertField pfs "description" "No description available" ++ "\n" ++
             "Instructions: " ++ alertField pfs "instruction" "No specific instructions provided")) ∧
    (∀ fs pfs : List (String × Json), lookupField fs "properties" = some (Json.obj pfs) →
      (∀ k, k ∈ ["event", "areaDesc", "severity", "description", "instruction"] →
        ∀ v, lookupField pfs k = some v → v.pyStr.data.count '\n' = 0) →
      ∀ s, format_alert (Json.obj fs) = .ok s → numLines s = 5) ∧
    (∀ fs : List (String × Json), lookupField fs "properties" = some (Json.obj []) →
      format_alert (Json.obj fs) =
        .ok "Event: Unknown\nArea: Unknown\nSeverity: Unknown\nDescription: No description available\nInstructions: No specific instructions provided") ∧
    numLines "Event: Unknown\nArea: Unknown\nSeverity: Unknown\nDescription: No description available\nInstructions: No specific instructions provided" = 5 := by
  refine ⟨format_alert_template, ?_, ?_, rfl⟩
  · intro fs pfs hprops hnl s hs
    rw [format_alert_template fs pfs hprops] at hs
    obtain rfl := Except.ok.inj hs
    exact numLines_template _ _ _ _ _
      (alertField_count_nl pfs "event" "Unknown" rfl
        (fun v hv => hnl "event" (by decide) v hv))
      (alertField_count_nl pfs "areaDesc" "Unknown" rfl
        (fun v hv => hnl "areaDesc" (by decide) v hv))
      (alertField_count_nl pfs "severity" "Unknown" rfl
        (fun v hv => hnl "severity" (by decide) v hv))
      (alertField_count_nl pfs "description" "No description available" rfl
        (fun v hv => hnl "description" (by decide) v hv))
      (alertField_count_nl pfs "instruction" "No specific instructions provided" rfl
        (fun v hv => hnl "instruction" (by decide) v hv))
  · intro fs h
    rw [format_alert_template fs [] h]
    rfl

/-- C2 witness: a feature with an empty properties dict yields the
all-defaults block of five lines. -/
theorem format_alert_defaulted_template_witness :
    format_alert (Json.obj [("properties", Json.obj [])]) =
      .ok "Event: Unknown\nArea: Unknown\nSeverity: Unknown\nDescription: No description available\nInstructions: No specific instructions provided" ∧
    numLines "Event: Unknown\nArea: Unknown\nSeverity: Unknown\nDescription: No description available\nInstructions: No specific instructions provided" = 5 :=
  ⟨format_alert_defaulted_template.2.2.1 [("properties", Json.obj [])] rfl,
   format_alert_defaulted_template.2.2.2⟩

/-- C6 counterexample: the empty decoded points mapping lacks
`properties.forecast`, yet `get_forecast` returns the fixed "unable to
fetch" message instead of propagating a fault — the claim as universally
stated is false (the truthiness guard fires first). -/
theorem get_forecast_missing_field_cex :
    lookupField ([] : List (String × Json)) "properties" = none ∧
    get_forecast (fun _ => some (Json.obj [])) "39.7456" "-97.0892" =
      .ok "Unable to fetch forecast data for this location." :=
  ⟨rfl, rfl⟩

/-- C6 amended: when the decoded points mapping is truthy (non-empty) and
lacks `properties`, or its properties mapping lacks `forecast`, or — with
both fetches decoding to truthy mappings — one of the first five forecast
periods is an object lacking one of the six required fields, `get_forecast`
propagates a raised fault: it is not caught, not defaulted, and not turned
into an "unable to fetch" string. -/
theorem get_forecast_required_field_fault :
    (∀ (fetch : Json → Option Json) (lat lon : String) (fs : List (String × Json)),
      fetch (Json.str (points_url lat lon)) = some (Json.obj fs) →
      (Json.obj fs).falsy = false →
      lookupField fs "properties" = none →
      ∃ e, get_forecast fetch lat lon = .error e) ∧
    (∀ (fetch : Json → Option Json) (lat lon : String) (fs pfs : List (String × Json)),
      fetch (Json.str (points_url lat lon)) = some (Json.obj fs) →
      (Json.obj fs).falsy = false →
      lookupField fs "properties" = some (Json.obj pfs) →
      lookupField pfs "forecast" = none →
      ∃ e, get_forecast fetch lat lon = .error e) ∧
    (∀ (fetch : Json → Option Json) (lat lon : String) (pd props u fd fprops : Json)
      (ps : List Json) (p : Json) (pfields : List (String × Json)) (k : String),
      fetch (Json.str (points_url lat lon)) = some pd →
      pd.falsy = false →
      py_getItem pd "properties" = .ok props →
      py_getItem props "forecast" = .ok u →
      fetch u = some fd →
      fd.falsy = false →
      py_getItem fd "properties" = .ok fprops →
      py_getItem fprops "periods" = .ok (Json.arr ps) →
      p ∈ ps.take 5 →
      p = Json.obj pfields →
      (k = "name" ∨ k = "temperature" ∨ k = "temperatureUnit" ∨ k = "windSpeed" ∨
       k = "windDirection" ∨ k = "detailedForecast") →
      lookupField pfields k = none →
      ∃ e, get_forecast fetch lat lon = .error e) := by
  refine ⟨?_, ?_, ?_⟩
  · intro fetch lat lon fs h hfalsy hlk
    refine ⟨.keyError "properties", ?_⟩
    unfold get_forecast
    rw [h]
    simp [hfalsy, py_getItem, hlk]
  · intro fetch lat lon fs pfs h hfalsy hp hf
    refine ⟨.keyError "forecast", ?_⟩
    unfold get_forecast
    rw [h]
    simp [hfalsy, py_getItem, hp, hf]
  · intro fetch lat lon pd props u fd fprops ps p pfields k
      h1 h2 h3 h4 h5 h6 h7 h8 hmem hobj hk hnone
    obtain ⟨e, he⟩ := format_period_error_of_missing pfields k hk hnone
    subst hobj
    obtain ⟨e2, he2⟩ :=
      mapExcept_error_of_mem format_period (ps.take 5) (Json.obj pfields) e hmem he
    refine ⟨e2, ?_⟩
    rw [get_forecast_pipeline fetch lat lon pd props u fd fprops (Json.arr ps)
      h1 h2 h3 h4 h5 h6 h7 h8]
    simp [py_slice5, he2]

/-- C6 witness: a truthy points mapping without a `properties` key makes the
handler raise. -/
theorem get_forecast_required_field_fault_witness :
    ∃ e, get_forecast (fun _ => some (Json.obj [("id", Json.num 1)]))
      "39.7456" "-97.0892" = .error e :=
  get_forecast_required_field_fault.1 (fun _ => some (Json.obj [("id", Json.num 1)]))
    "39.7456" "-97.0892" [("id", Json.num 1)] rfl rfl rfl
